import Mathlib

/-!
Shallow embedding, in Lean 4, of the deployment scripts of the
Healthmate-Frontend repository (scripts/config.py, scripts/upload.py,
scripts/invalidate.py, scripts/deploy.py), together with theorems that
settle the specification claims about them.

External collaborators (the AWS SDK calls, the filesystem, the `mimetypes`
module, wall-clock time) are passed in as explicit parameters, so every
definition is an executable total function; Python exceptions are modelled
with `Except`.
-/

namespace Healthmate

/-! ## invalidate.py — CloudFrontInvalidator.optimize_invalidation_paths -/

/-- Python `if not path.startswith('/'): path = '/' + path`
(invalidate.py lines 137-140): a path is left unchanged when its first
character is already a slash, otherwise a slash is prepended. -/
def ensureLeadingSlash (p : String) : String :=
  match p.toList with
  | '/' :: _ => p
  | _ => "/" ++ p

/-- Python string comparison `a ≤ b`: lexicographic on Unicode code points,
with a proper prefix comparing smaller. -/
def charsLe : List Char → List Char → Bool
  | [], _ => true
  | _ :: _, [] => false
  | a :: as, b :: bs =>
    if a.toNat < b.toNat then true
    else if b.toNat < a.toNat then false
    else charsLe as bs

/-- Python string comparison `a <= b` lifted to `String`. -/
def pyStrLe (a b : String) : Bool :=
  charsLe a.toList b.toList

/-- Insert a string into an already sorted list (ascending Python order). -/
def insertSorted (p : String) : List String → List String
  | [] => [p]
  | q :: rest => if pyStrLe p q then p :: q :: rest else q :: insertSorted p rest

/-- Ascending sort in Python string order. -/
def sortStrings : List String → List String
  | [] => []
  | p :: rest => insertSorted p (sortStrings rest)

/-- Python `sorted(set(paths))` (invalidate.py line 127): duplicates removed,
then sorted in ascending code-point order. -/
def uniqueSorted (paths : List String) : List String :=
  sortStrings (paths.foldl (fun acc p => if p ∈ acc then acc else acc ++ [p]) [])

/-- `CloudFrontInvalidator.optimize_invalidation_paths` (invalidate.py
lines 108-150): empty input means "invalidate everything"; more than 10
distinct paths collapse to the wildcard; otherwise each deduplicated, sorted
path gets a leading slash, and more than 5 of those also collapse to the
wildcard. -/
def optimize_invalidation_paths (paths : List String) : List String :=
  if paths = [] then ["/*"]
  else
    let unique_paths := uniqueSorted paths
    if unique_paths.length > 10 then ["/*"]
    else
      let optimized := unique_paths.map ensureLeadingSlash
      if optimized.length > 5 then ["/*"]
      else optimized

/-! ## config.py — DeploymentConfig.from_cloudformation -/

/-- The named outputs extracted from a successful `describe_stacks` call
(config.py lines 51-53). A value of this type abstracts one successful run of
the whole `try` block body. -/
structure StackOutputs where
  bucketName : String
  distributionId : String
  distributionDomainName : String
  websiteUrl : String
deriving DecidableEq

/-- The `DeploymentConfig` dataclass (config.py lines 15-23). -/
structure DeploymentConfig where
  environment : String
  bucket_name : String
  distribution_id : String
  distribution_domain_name : String
  website_url : String
  region : String
deriving DecidableEq

/-- The retry loop of `DeploymentConfig.from_cloudformation` (config.py lines
48-71). `query n` is the outcome of the attempt with 0-based index `n`
(`describe_stacks` plus output extraction; `.error` abstracts any raised
exception). `fuel` counts the attempts still available, so the loop is entered
with `fuel = max_retries = 10` and the current attempt is the last one exactly
when `fuel = 1`. The returned list records the `time.sleep` delays performed,
in order; the fuel-0 branch is never reached from a positive fuel. -/
def from_cloudformation_loop (query : Nat → Except String StackOutputs)
    (stackName : String) :
    Nat → Nat → Nat → List Nat → Except String StackOutputs × List Nat
  | 0, _, _, sleeps => (.error "", sleeps)
  | fuel + 1, attempt, retry_delay, sleeps =>
    match query attempt with
    | .ok outputs => (.ok outputs, sleeps)
    | .error e =>
      if fuel = 0 then
        (.error ("Failed to get CloudFormation outputs for stack " ++ stackName ++ ": " ++ e),
         sleeps)
      else
        from_cloudformation_loop query stackName fuel (attempt + 1) (retry_delay * 2)
          (sleeps ++ [retry_delay])

/-- `DeploymentConfig.from_cloudformation` (config.py lines 25-71): the
environment is validated, the stack name is derived from it, and the stack
query is retried up to 10 times starting from a 2-second delay that doubles
after every failed attempt. The second component of the result lists the
backoff delays actually slept. -/
def from_cloudformation (query : Nat → Except String StackOutputs)
    (environment region : String) : Except String DeploymentConfig × List Nat :=
  if environment ∈ (["dev", "stage", "prod"] : List String) then
    let stackName := "Healthmate-FrontendStack-" ++ environment
    match from_cloudformation_loop query stackName 10 0 2 [] with
    | (.ok o, sleeps) =>
      (.ok { environment := environment, bucket_name := o.bucketName,
             distribution_id := o.distributionId,
             distribution_domain_name := o.distributionDomainName,
             website_url := o.websiteUrl, region := region }, sleeps)
    | (.error e, sleeps) => (.error e, sleeps)
  else
    (.error ("Invalid environment: " ++ environment), [])

/-! ## upload.py — content typing (S3Uploader.get_mime_type / get_cache_control) -/

/-- The `custom_types` table of `S3Uploader.get_mime_type` (upload.py lines
98-112). -/
def customTypes : List (String × String) :=
  [(".js", "application/javascript"), (".mjs", "application/javascript"),
   (".css", "text/css"), (".html", "text/html"), (".json", "application/json"),
   (".svg", "image/svg+xml"), (".woff", "font/woff"), (".woff2", "font/woff2"),
   (".ttf", "font/ttf"), (".eot", "application/vnd.ms-fontobject"),
   (".ico", "image/x-icon"), (".webp", "image/webp"), (".avif", "image/avif")]

/-- Index of the last occurrence of `c`, as Python `str.rfind` (with `none`
for Python's -1). -/
def rfindChar (c : Char) : List Char → Option Nat
  | [] => none
  | x :: xs =>
    match rfindChar c xs with
    | some i => some (i + 1)
    | none => if x = c then some 0 else none

/-- Accumulating helper for `pyBasename`. -/
def basenameAux (cur : List Char) : List Char → List Char
  | [] => cur
  | c :: cs => if c = '/' then basenameAux [] cs else basenameAux (cur ++ [c]) cs

/-- `PurePath.name`: the final path component of a slash-separated file path
(the enumerated regular-file paths never end in a separator). -/
def pyBasename (p : List Char) : List Char :=
  basenameAux [] p

/-- `PurePath.suffix`: the extension of the final component, including its
dot; empty when the last dot is absent, leading, or trailing. -/
def pySuffix (p : String) : String :=
  let name := pyBasename p.toList
  match rfindChar '.' name with
  | some i => if 0 < i ∧ i < name.length - 1 then String.mk (name.drop i) else ""
  | none => ""

/-- Python `str.lower` on the ASCII extension strings involved here. -/
def lowerString (s : String) : String :=
  String.mk (s.toList.map Char.toLower)

/-- `S3Uploader.get_mime_type` (upload.py lines 81-114). `guess` abstracts
`mimetypes.guess_type` (first tuple component, `none` for Python `None`);
when it knows no type, the lowercased extension is looked up in the built-in
web-asset table, and `application/octet-stream` is the final fallback. -/
def get_mime_type (guess : String → Option String) (file_path : String) : String :=
  match guess file_path with
  | some mime_type => mime_type
  | none =>
    let suffix := lowerString (pySuffix file_path)
    (customTypes.lookup suffix).getD "application/octet-stream"

/-- `S3Uploader.get_cache_control` (upload.py lines 116-129): CloudFront
caching is disabled, so every file gets the same no-cache directive. -/
def get_cache_control (_file_path : String) : String :=
  "no-cache, no-store, must-revalidate"

/-! ## upload.py — artifact enumeration (S3Uploader.get_files_to_upload) -/

/-- One filesystem entry beneath the `dist` directory: its path components
relative to `dist`, and whether it is a regular file. -/
structure FSEntry where
  components : List String
  isFile : Bool
deriving DecidableEq

/-- The `dist` directory as seen by `get_files_to_upload`: whether it exists,
and the entries `rglob('*')` yields beneath it. -/
structure BuildDir where
  present : Bool
  entries : List FSEntry
deriving DecidableEq

/-- Python `s3_key.replace('\\', '/')` (upload.py line 236): a one-character
pattern, so substring replacement is a character map. -/
def replaceBackslash (cs : List Char) : List Char :=
  cs.map (fun c => if c = '\\' then '/' else c)

/-- `str(relative_path)`: the relative path components joined with the host
path separator (`'/'` on POSIX, `'\\'` on Windows). -/
def joinComponents (sep : Char) : List String → List Char
  | [] => []
  | [c] => c.toList
  | c :: rest => c.toList ++ sep :: joinComponents sep rest

/-- The S3 key computed for one enumerated file (upload.py lines 234-236). -/
def relativeKey (sep : Char) (comps : List String) : String :=
  String.mk (replaceBackslash (joinComponents sep comps))

/-- `S3Uploader.get_files_to_upload` (upload.py lines 220-240): raises when
the build directory does not exist, otherwise pairs every regular file
beneath it with its forward-slash S3 key. `sep` is the host path separator
used by `str(relative_path)`; `distName` renders `self.dist_dir` in the error
message. -/
def get_files_to_upload (sep : Char) (dist : BuildDir) (distName : String) :
    Except String (List (FSEntry × String)) :=
  if dist.present then
    .ok ((dist.entries.filter (fun e => e.isFile)).map
      (fun e => (e, relativeKey sep e.components)))
  else
    .error ("Build directory not found: " ++ distName)

/-! ## upload.py — parallel upload (S3Uploader.upload_files / upload) -/

/-- One (local path, S3 key) pair submitted to the executor. -/
structure UploadTask where
  local_path : String
  s3_key : String
deriving DecidableEq

/-- The dict returned by `S3Uploader.upload_file` (upload.py lines 147-218):
either the success dict with size, MIME type and hash, or the failure dict
with an error string. -/
inductive FileResult where
  | ok (local_path s3_key : String) (size : Nat) (mime_type hash : String)
  | failed (local_path s3_key error : String)
deriving DecidableEq

/-- The `result['success']` flag. -/
def FileResult.isSuccess : FileResult → Bool
  | .ok .. => true
  | .failed .. => false

/-- The `result['size']` field (only ever read on the success branch). -/
def FileResult.size : FileResult → Nat
  | .ok _ _ sz _ _ => sz
  | .failed .. => 0

/-- The single outcome the `as_completed` loop derives for one task: the
dict `future.result()` returned, or the failure dict built in the `except`
arm when `future.result()` itself raised (upload.py lines 306-328). -/
def outcomeFor (worker : UploadTask → Except String FileResult)
    (t : UploadTask) : FileResult :=
  match worker t with
  | .ok r => r
  | .error e => .failed t.local_path t.s3_key e

/-- The `as_completed` accumulation loop of `upload_files` (upload.py lines
291-328), folded over the completion order: the triple is
(`successful_uploads`, `failed_uploads`, `total_size`). -/
def processCompleted (worker : UploadTask → Except String FileResult)
    (order : List UploadTask) : List FileResult × List FileResult × Nat :=
  order.foldl
    (fun acc t =>
      match worker t with
      | .ok r =>
        if r.isSuccess then (acc.1 ++ [r], acc.2.1, acc.2.2 + r.size)
        else (acc.1, acc.2.1 ++ [r], acc.2.2)
      | .error e =>
        (acc.1, acc.2.1 ++ [FileResult.failed t.local_path t.s3_key e], acc.2.2))
    ([], [], 0)

/-- The results dict assembled by `upload_files` (upload.py lines 291-341;
the derived `success_rate` and `total_size_mb` fields are omitted). -/
structure UploadResults where
  successful_uploads : List FileResult
  failed_uploads : List FileResult
  total_files : Nat
  total_size : Nat
  success_count : Nat
  failure_count : Nat
deriving DecidableEq

/-- `S3Uploader.verify_bucket_exists` (upload.py lines 242-264): `head_bucket`
succeeding means `true`; any `ClientError` or other exception means `false`. -/
def verify_bucket_exists (headBucket : Except String Unit) : Bool :=
  match headBucket with
  | .ok _ => true
  | .error _ => false

/-- Return value of the `upload_files` model together with the tasks that
were actually submitted to the thread pool (empty whenever the function
raises before reaching the executor). -/
structure UploadFilesOutput where
  result : Except String UploadResults
  submitted : List UploadTask

/-- `S3Uploader.upload_files` (upload.py lines 266-346). `headBucket` is the
`head_bucket` outcome, `files_to_upload` the `get_files_to_upload` outcome,
`worker` the per-future `future.result()` behaviour, and `completionOrder`
the order in which `as_completed` yields the futures (the theorems constrain
it to a permutation of the submitted tasks). `.error` models a raised
`UploadError`. -/
def upload_files (bucket_name : String) (headBucket : Except String Unit)
    (files_to_upload : Except String (List UploadTask))
    (worker : UploadTask → Except String FileResult)
    (completionOrder : List UploadTask) : UploadFilesOutput :=
  if verify_bucket_exists headBucket = false then
    ⟨.error ("Cannot access S3 bucket: " ++ bucket_name), []⟩
  else
    match files_to_upload with
    | .error e => ⟨.error e, []⟩
    | .ok tasks =>
      if tasks = [] then ⟨.error "No files found to upload", []⟩
      else
        let p := processCompleted worker completionOrder
        ⟨.ok { successful_uploads := p.1, failed_uploads := p.2.1,
               total_files := tasks.length, total_size := p.2.2,
               success_count := p.1.length, failure_count := p.2.1.length },
         tasks⟩

/-- The dict returned by `S3Uploader.upload` (upload.py lines 348-392). -/
structure UploadOuterResult where
  success : Bool
  environment : String
  bucket : String
  results : Option UploadResults
  error : Option String
deriving DecidableEq

/-- `S3Uploader.upload` (upload.py lines 348-392): wraps the `upload_files`
outcome; any raised `UploadError` becomes a failure dict without results,
and a returned report with failures becomes a failure dict that keeps the
full report. -/
def upload (environment bucket_name : String)
    (uploadFilesResult : Except String UploadResults) : UploadOuterResult :=
  match uploadFilesResult with
  | .ok results =>
    if results.failure_count > 0 then
      { success := false, environment := environment, bucket := bucket_name,
        results := some results,
        error := some (toString results.failure_count ++ " files failed to upload") }
    else
      { success := true, environment := environment, bucket := bucket_name,
        results := some results, error := none }
  | .error e =>
    { success := false, environment := environment, bucket := bucket_name,
      results := none, error := some e }

/-! ## invalidate.py — CloudFrontInvalidator.create_invalidation -/

/-- A Python value stored in a dataclass field. -/
inductive PyVal where
  | str (s : String)
  | bool (b : Bool)
  | int (n : Int)
  | noneV
deriving DecidableEq

/-- The `EnvironmentSettings` dataclass (config.py lines 74-88): exactly
these twelve fields, and no others, exist on an instance. -/
structure EnvironmentSettings where
  environment : String
  aws_region : String
  aws_profile : Option String
  build_mode : String
  build_sourcemap : Bool
  build_minify : Bool
  deployment_confirm : Bool
  deployment_cache_invalidation : Bool
  deployment_concurrency : Nat
  deployment_retry_attempts : Nat
  monitoring_logging : Bool
  monitoring_log_level : String
deriving DecidableEq

/-- Python attribute access on an `EnvironmentSettings` instance: the
declared dataclass fields resolve to their values, and any other name raises
`AttributeError` (modelled as `.error` with the CPython message). -/
def EnvironmentSettings.getattr (s : EnvironmentSettings) (name : String) :
    Except String PyVal :=
  if name = "environment" then .ok (.str s.environment)
  else if name = "aws_region" then .ok (.str s.aws_region)
  else if name = "aws_profile" then
    .ok (match s.aws_profile with | some p => .str p | none => .noneV)
  else if name = "build_mode" then .ok (.str s.build_mode)
  else if name = "build_sourcemap" then .ok (.bool s.build_sourcemap)
  else if name = "build_minify" then .ok (.bool s.build_minify)
  else if name = "deployment_confirm" then .ok (.bool s.deployment_confirm)
  else if name = "deployment_cache_invalidation" then
    .ok (.bool s.deployment_cache_invalidation)
  else if name = "deployment_concurrency" then
    .ok (.int (s.deployment_concurrency : Int))
  else if name = "deployment_retry_attempts" then
    .ok (.int (s.deployment_retry_attempts : Int))
  else if name = "monitoring_logging" then .ok (.bool s.monitoring_logging)
  else if name = "monitoring_log_level" then .ok (.str s.monitoring_log_level)
  else .error ("'EnvironmentSettings' object has no attribute '" ++ name ++ "'")

/-- Outcome of the `cloudfront_client.create_invalidation` SDK call:
success with an invalidation id and status, or a `ClientError` with a code
and message. -/
inductive CdnCallResult where
  | ok (id status : String)
  | clientError (code msg : String)
deriving DecidableEq

/-- The dict returned by `CloudFrontInvalidator.create_invalidation` on
success (upload of `create_time` omitted). -/
structure InvalidationSuccess where
  invalidation_id : String
  status : String
  paths : List String
deriving DecidableEq

/-- `CloudFrontInvalidator.create_invalidation` (invalidate.py lines
152-210). The paths are optimized, then inside the `try` block the
distribution id is read off `self.settings` — an `EnvironmentSettings`
instance — before the SDK call (`cdn`) can be made; an `AttributeError`
there is caught by the generic `except Exception` arm. `.error` models a
raised `InvalidationError`. -/
def create_invalidation (settings : EnvironmentSettings)
    (cdn : PyVal → List String → String → CdnCallResult)
    (paths : List String) (caller_reference : String) :
    Except String InvalidationSuccess :=
  let optimized_paths := optimize_invalidation_paths paths
  match settings.getattr "distribution_id" with
  | .error e => .error ("Unexpected error creating invalidation: " ++ e)
  | .ok distribution_id =>
    match cdn distribution_id optimized_paths caller_reference with
    | .ok id status =>
      .ok { invalidation_id := id, status := status, paths := optimized_paths }
    | .clientError code msg =>
      if code = "TooManyInvalidationsInProgress" then
        .error "Too many invalidations in progress. Please wait and try again."
      else if code = "InvalidArgument" then
        .error ("Invalid invalidation request: " ++ msg)
      else
        .error ("CloudFront error: " ++ code ++ " - " ++ msg)

/-! ## deploy.py — HealthmateFrontendDeployer.deploy -/

/-- One entry of the `results['steps']` dict (`'details'` payloads omitted):
the step name, its recorded success flag, its recorded duration, and whether
it was recorded as skipped. -/
structure StepRecord where
  name : String
  success : Bool
  time : Nat
  skipped : Bool
deriving DecidableEq

/-- The dict returned by `deploy` (deploy.py lines 223-288). -/
structure DeployResults where
  success : Bool
  environment : String
  steps : List StepRecord
  total_time : Nat
  error : Option String
deriving DecidableEq

/-- The `deploy` outcome together with the ordered list of step actions the
orchestrator actually invoked (`validate_prerequisites`,
`run_frontend_build`, `uploader.upload` — invalidation is never among
them, mirroring that `deploy` contains no invalidation call). -/
structure DeployTrace where
  results : DeployResults
  executed : List String
deriving DecidableEq

/-- The tail of `deploy` from step 3 on (deploy.py lines 256-277): the upload
step is invoked; on success its record is appended and the run succeeds, on
failure a `DeploymentError` is raised before the record is appended, so the
steps accumulated so far are returned. A missing `'error'` key in a failed
upload dict would raise `KeyError('error')` inside the f-string, caught by
the generic handler. -/
def deployUploadPhase (environment : String) (steps2 : List StepRecord)
    (executed2 : List String) (upload_result : UploadOuterResult)
    (timeSoFar uploadTime : Nat) : DeployTrace :=
  if upload_result.success then
    ⟨{ success := true, environment := environment,
       steps := steps2 ++ [⟨"upload", true, uploadTime, false⟩],
       total_time := timeSoFar + uploadTime, error := none },
     executed2 ++ ["upload"]⟩
  else
    ⟨{ success := false, environment := environment, steps := steps2,
       total_time := timeSoFar + uploadTime,
       error := some (match upload_result.error with
         | some e => "S3 upload failed: " ++ e
         | none => "Unexpected error: 'error'") },
     executed2 ++ ["upload"]⟩

/-- `HealthmateFrontendDeployer.deploy` (deploy.py lines 212-288). `prereq`,
`build` and `upload_result` are the outcomes of the three step actions
(`.error` abstracts a raised exception's message); the `Nat` arguments are
the durations the wall clock attributes to each step. -/
def deploy (environment : String) (prereq : Except String Unit)
    (skip_build : Bool) (build : Except String Unit)
    (upload_result : UploadOuterResult)
    (prereqTime buildTime uploadTime : Nat) : DeployTrace :=
  match prereq with
  | .error e =>
    ⟨{ success := false, environment := environment, steps := [],
       total_time := prereqTime, error := some e }, ["prerequisites"]⟩
  | .ok _ =>
    let prereqStep : StepRecord := ⟨"prerequisites", true, prereqTime, false⟩
    if skip_build then
      deployUploadPhase environment [prereqStep, ⟨"build", true, 0, true⟩]
        ["prerequisites"] upload_result prereqTime uploadTime
    else
      match build with
      | .error e =>
        ⟨{ success := false, environment := environment, steps := [prereqStep],
           total_time := prereqTime + buildTime, error := some e },
         ["prerequisites", "build"]⟩
      | .ok _ =>
        deployUploadPhase environment
          [prereqStep, ⟨"build", true, buildTime, false⟩]
          ["prerequisites", "build"] upload_result (prereqTime + buildTime)
          uploadTime

/-! ## Theorems -/

/-- On a non-empty input the outer guard of `optimize_invalidation_paths`
falls away. -/
theorem optimize_nonempty_eq (paths : List String) (hp : paths ≠ []) :
    optimize_invalidation_paths paths =
      if (uniqueSorted paths).length > 10 then ["/*"]
      else if ((uniqueSorted paths).map ensureLeadingSlash).length > 5 then ["/*"]
      else (uniqueSorted paths).map ensureLeadingSlash := by
  simp [optimize_invalidation_paths, hp]

/-- C1: `optimize_invalidation_paths` returns exactly `["/*"]` on an empty
path list; returns exactly `["/*"]` when the distinct paths exceed the
wildcard threshold (more than 10 distinct inputs, or more than 5 after
leading-slash normalization, which preserves the count); and otherwise
returns the deduplicated, sorted input paths, each with a leading slash
ensured. -/
theorem optimize_invalidation_paths_spec (paths : List String) :
    (paths = [] → optimize_invalidation_paths paths = ["/*"]) ∧
    ((uniqueSorted paths).length > 10 → optimize_invalidation_paths paths = ["/*"]) ∧
    (((uniqueSorted paths).map ensureLeadingSlash).length > 5 →
      optimize_invalidation_paths paths = ["/*"]) ∧
    (paths ≠ [] → (uniqueSorted paths).length ≤ 5 →
      optimize_invalidation_paths paths = (uniqueSorted paths).map ensureLeadingSlash) := by
  refine ⟨fun h => by simp [optimize_invalidation_paths, h], ?_, ?_, ?_⟩
  · intro h
    by_cases hp : paths = []
    · simp [optimize_invalidation_paths, hp]
    · rw [optimize_nonempty_eq paths hp, if_pos h]
  · intro h
    by_cases hp : paths = []
    · simp [optimize_invalidation_paths, hp]
    · rw [optimize_nonempty_eq paths hp]
      split_ifs with h10
      · rfl
      · rfl
  · intro hp h5
    rw [optimize_nonempty_eq paths hp, if_neg (by omega),
      if_neg (by rw [List.length_map]; omega)]

/-- C1 witness: three paths with a duplicate come back deduplicated, sorted
and slash-prefixed. -/
theorem optimize_invalidation_paths_spec_witness :
    (["b", "a", "b"] : List String) ≠ [] ∧ (uniqueSorted ["b", "a", "b"]).length ≤ 5 ∧
    optimize_invalidation_paths ["b", "a", "b"] = ["/a", "/b"] :=
  ⟨by decide, by decide,
    ((optimize_invalidation_paths_spec ["b", "a", "b"]).2.2.2 (by decide) (by decide)).trans
      (by decide)⟩

/-- Unrolling one doubling step of the backoff-delay sequence. -/
theorem delay_seq (delay k : Nat) :
    [delay] ++ (List.range k).map (fun i => delay * 2 * 2 ^ i) =
      (List.range (k + 1)).map (fun i => delay * 2 ^ i) := by
  rw [List.range_succ_eq_map, List.map_cons, List.map_map]
  simp only [List.singleton_append, pow_zero, Nat.mul_one]
  congr 1
  refine List.map_congr_left fun i _ => ?_
  simp only [Function.comp_apply, pow_succ]
  ring

/-- Retry loop, success case: after `k` failed attempts an attempt inside the
fuel succeeds, the outputs are returned, and the delays slept are exactly the
doubling sequence started at the incoming delay. -/
theorem from_cloudformation_loop_ok (query : Nat → Except String StackOutputs)
    (stackName : String) :
    ∀ (k fuel attempt delay : Nat) (sleeps : List Nat) (o : StackOutputs),
      k < fuel →
      (∀ i, i < k → (query (attempt + i)).isOk = false) →
      query (attempt + k) = .ok o →
      from_cloudformation_loop query stackName fuel attempt delay sleeps =
        (.ok o, sleeps ++ (List.range k).map (fun i => delay * 2 ^ i)) := by
  intro k
  induction k with
  | zero =>
    intro fuel attempt delay sleeps o hk _ hq
    match fuel, hk with
    | fuel + 1, _ =>
      rw [Nat.add_zero] at hq
      simp [from_cloudformation_loop, hq]
  | succ k ih =>
    intro fuel attempt delay sleeps o hk hfail hq
    match fuel, hk with
    | fuel + 1, hk =>
      have h0 : (query (attempt + 0)).isOk = false := hfail 0 (Nat.succ_pos k)
      rw [Nat.add_zero] at h0
      cases hcur : query attempt with
      | ok o' =>
        rw [hcur] at h0
        exact absurd h0 (by simp [Except.isOk, Except.toBool])
      | error e =>
        have hfuel : fuel ≠ 0 := by omega
        have step :
            from_cloudformation_loop query stackName (fuel + 1) attempt delay sleeps =
              from_cloudformation_loop query stackName fuel (attempt + 1) (delay * 2)
                (sleeps ++ [delay]) := by
          simp [from_cloudformation_loop, hcur, hfuel]
        rw [step, ih fuel (attempt + 1) (delay * 2) (sleeps ++ [delay]) o
          (by omega)
          (fun i hi => by
            have := hfail (i + 1) (by omega)
            rwa [show attempt + (i + 1) = attempt + 1 + i by omega] at this)
          (by rwa [show attempt + 1 + k = attempt + (k + 1) by omega])]
        rw [List.append_assoc, delay_seq]

/-- Retry loop, exhaustion case: when every attempt the fuel allows fails,
the loop raises the permanent error naming the stack and wrapping the last
attempt's error. -/
theorem from_cloudformation_loop_err (query : Nat → Except String StackOutputs)
    (stackName : String) :
    ∀ (f attempt delay : Nat) (sleeps : List Nat) (e : String),
      (∀ i, i < f → (query (attempt + i)).isOk = false) →
      query (attempt + f) = .error e →
      from_cloudformation_loop query stackName (f + 1) attempt delay sleeps =
        (.error ("Failed to get CloudFormation outputs for stack " ++ stackName
            ++ ": " ++ e),
         sleeps ++ (List.range f).map (fun i => delay * 2 ^ i)) := by
  intro f
  induction f with
  | zero =>
    intro attempt delay sleeps e _ hq
    rw [Nat.add_zero] at hq
    simp [from_cloudformation_loop, hq]
  | succ f ih =>
    intro attempt delay sleeps e hfail hq
    have h0 : (query (attempt + 0)).isOk = false := hfail 0 (Nat.succ_pos f)
    rw [Nat.add_zero] at h0
    cases hcur : query attempt with
    | ok o' =>
      rw [hcur] at h0
      exact absurd h0 (by simp [Except.isOk, Except.toBool])
    | error e' =>
      have step :
          from_cloudformation_loop query stackName (f + 1 + 1) attempt delay sleeps =
            from_cloudformation_loop query stackName (f + 1) (attempt + 1) (delay * 2)
              (sleeps ++ [delay]) := by
        simp [from_cloudformation_loop, hcur]
      rw [step, ih (attempt + 1) (delay * 2) (sleeps ++ [delay]) e
        (fun i hi => by
          have := hfail (i + 1) (by omega)
          rwa [show attempt + (i + 1) = attempt + 1 + i by omega] at this)
        (by rwa [show attempt + 1 + f = attempt + (f + 1) by omega])]
      rw [List.append_assoc, delay_seq]

/-- C2: for a valid environment, `from_cloudformation` retries the stack
query on any failure up to 10 attempts with exponential backoff — sleeping
2, 4, 8, … seconds after the failed attempts — returning the resolved
configuration as soon as any attempt within the ceiling succeeds, and, when
all 10 attempts fail, raising the permanent error that names the stack and
the last underlying failure. -/
theorem from_cloudformation_spec (query : Nat → Except String StackOutputs)
    (environment region : String)
    (henv : environment ∈ (["dev", "stage", "prod"] : List String)) :
    (∀ k o, k < 10 → (∀ i, i < k → (query i).isOk = false) → query k = .ok o →
      from_cloudformation query environment region =
        (.ok { environment := environment, bucket_name := o.bucketName,
               distribution_id := o.distributionId,
               distribution_domain_name := o.distributionDomainName,
               website_url := o.websiteUrl, region := region },
         (List.range k).map (fun i => 2 * 2 ^ i))) ∧
    (∀ e, (∀ i, i < 9 → (query i).isOk = false) → query 9 = .error e →
      from_cloudformation query environment region =
        (.error ("Failed to get CloudFormation outputs for stack "
            ++ ("Healthmate-FrontendStack-" ++ environment) ++ ": " ++ e),
         (List.range 9).map (fun i => 2 * 2 ^ i))) := by
  constructor
  · intro k o hk hfail hq
    have hloop := from_cloudformation_loop_ok query
      ("Healthmate-FrontendStack-" ++ environment) k 10 0 2 [] o hk
      (fun i hi => by simpa using hfail i hi) (by simpa using hq)
    simp only [List.nil_append] at hloop
    simp [from_cloudformation, henv, hloop]
  · intro e hfail hq
    have hloop := from_cloudformation_loop_err query
      ("Healthmate-FrontendStack-" ++ environment) 9 0 2 [] e
      (fun i hi => by simpa using hfail i hi) (by simpa using hq)
    simp only [List.nil_append] at hloop
    simp [from_cloudformation, henv, hloop]

/-- C2 witness: three transient failures followed by success on the fourth
attempt resolve the configuration after sleeping 2, 4 and 8 seconds. -/
theorem from_cloudformation_spec_witness :
    from_cloudformation
      (fun i => if i < 3 then .error "throttled"
                else .ok ⟨"bucket", "DIST123", "domain", "url"⟩) "dev" "us-west-2" =
      (.ok { environment := "dev", bucket_name := "bucket",
             distribution_id := "DIST123", distribution_domain_name := "domain",
             website_url := "url", region := "us-west-2" }, [2, 4, 8]) := by
  have h := (from_cloudformation_spec
      (fun i => if i < 3 then .error "throttled"
                else .ok ⟨"bucket", "DIST123", "domain", "url"⟩) "dev" "us-west-2"
      (by decide)).1 3 ⟨"bucket", "DIST123", "domain", "url"⟩
      (by decide) (by decide) (by rfl)
  exact h

/-- Generalized accumulator form of the `as_completed` loop: the successes
are the successful outcomes in completion order, the failures the rest, and
the total size is the sum of the successful sizes. -/
theorem processCompleted_go (worker : UploadTask → Except String FileResult) :
    ∀ (order : List UploadTask) (a b : List FileResult) (s : Nat),
      order.foldl
        (fun acc t =>
          match worker t with
          | .ok r =>
            if r.isSuccess then (acc.1 ++ [r], acc.2.1, acc.2.2 + r.size)
            else (acc.1, acc.2.1 ++ [r], acc.2.2)
          | .error e =>
            (acc.1, acc.2.1 ++ [FileResult.failed t.local_path t.s3_key e], acc.2.2))
        (a, b, s) =
      (a ++ (order.map (outcomeFor worker)).filter (fun r => r.isSuccess),
       b ++ (order.map (outcomeFor worker)).filter (fun r => !r.isSuccess),
       s + (((order.map (outcomeFor worker)).filter (fun r => r.isSuccess)).map
            FileResult.size).sum) := by
  intro order
  induction order with
  | nil => intro a b s; simp
  | cons t rest ih =>
    intro a b s
    rw [List.foldl_cons, List.map_cons]
    have houtcome : outcomeFor worker t =
        (match worker t with
         | .ok r => r
         | .error e => .failed t.local_path t.s3_key e) := rfl
    cases hw : worker t with
    | ok r =>
      rw [houtcome, hw]
      cases hr : r.isSuccess with
      | true =>
        simp only [hw, hr, if_true]
        rw [ih, List.filter_cons_of_pos (by simp [hr]),
          List.filter_cons_of_neg (by simp [hr])]
        simp [List.append_assoc, Nat.add_assoc]
      | false =>
        simp only [hw, hr, Bool.false_eq_true, if_false]
        rw [ih, List.filter_cons_of_neg (by simp [hr]),
          List.filter_cons_of_pos (by simp [hr])]
        simp [List.append_assoc]
    | error e =>
      rw [houtcome, hw]
      have hfail : (FileResult.failed t.local_path t.s3_key e).isSuccess = false := rfl
      simp only [hw]
      rw [ih, List.filter_cons_of_neg (by simp [hfail]),
        List.filter_cons_of_pos (by simp [hfail])]
      simp [List.append_assoc]

/-- Closed form of `processCompleted`. -/
theorem processCompleted_eq (worker : UploadTask → Except String FileResult)
    (order : List UploadTask) :
    processCompleted worker order =
      ((order.map (outcomeFor worker)).filter (fun r => r.isSuccess),
       (order.map (outcomeFor worker)).filter (fun r => !r.isSuccess),
       (((order.map (outcomeFor worker)).filter (fun r => r.isSuccess)).map
         FileResult.size).sum) := by
  unfold processCompleted
  rw [processCompleted_go]
  simp

/-- When the bucket check fails, `upload_files` raises before looking at the
files: the error dict mentions the bucket and nothing is submitted. -/
theorem upload_files_not_verified
    (bucket_name : String) (headBucket : Except String Unit)
    (files_to_upload : Except String (List UploadTask))
    (worker : UploadTask → Except String FileResult)
    (completionOrder : List UploadTask)
    (hb : verify_bucket_exists headBucket = false) :
    upload_files bucket_name headBucket files_to_upload worker completionOrder =
      ⟨.error ("Cannot access S3 bucket: " ++ bucket_name), []⟩ := by
  unfold upload_files
  rw [hb]
  simp

/-- With the bucket reachable and an empty enumeration, `upload_files`
raises "No files found to upload". -/
theorem upload_files_empty_eq
    (bucket_name : String) (headBucket : Except String Unit)
    (worker : UploadTask → Except String FileResult)
    (completionOrder : List UploadTask)
    (hb : verify_bucket_exists headBucket = true) :
    upload_files bucket_name headBucket (.ok []) worker completionOrder =
      ⟨.error "No files found to upload", []⟩ := by
  unfold upload_files
  rw [hb]
  simp

/-- With the bucket reachable and a non-empty enumeration, `upload_files`
returns the report assembled from the completed futures. -/
theorem upload_files_ok_eq
    (bucket_name : String) (headBucket : Except String Unit)
    (tasks : List UploadTask)
    (worker : UploadTask → Except String FileResult)
    (completionOrder : List UploadTask)
    (hb : verify_bucket_exists headBucket = true) (ht : tasks ≠ []) :
    upload_files bucket_name headBucket (.ok tasks) worker completionOrder =
      ⟨.ok { successful_uploads := (processCompleted worker completionOrder).1,
             failed_uploads := (processCompleted worker completionOrder).2.1,
             total_files := tasks.length,
             total_size := (processCompleted worker completionOrder).2.2,
             success_count := (processCompleted worker completionOrder).1.length,
             failure_count := (processCompleted worker completionOrder).2.1.length },
       tasks⟩ := by
  unfold upload_files
  rw [hb]
  simp [ht]

/-- C3: when `upload_files` reaches the worker pool and returns a report,
every submitted task has exactly one outcome — the successes and failures
together are a permutation of the single outcome each submitted task's
future yields, worker-level exceptions included — and the recorded
`success_count + failure_count` equals `total_files`. -/
theorem upload_files_outcome_invariant
    (bucket_name : String) (headBucket : Except String Unit)
    (tasks completionOrder : List UploadTask)
    (worker : UploadTask → Except String FileResult) (r : UploadResults)
    (horder : completionOrder.Perm tasks)
    (hres : (upload_files bucket_name headBucket (.ok tasks) worker
        completionOrder).result = .ok r) :
    r.success_count + r.failure_count = r.total_files ∧
    (r.successful_uploads ++ r.failed_uploads).Perm
      (tasks.map (outcomeFor worker)) ∧
    (upload_files bucket_name headBucket (.ok tasks) worker
        completionOrder).submitted = tasks := by
  cases hb : verify_bucket_exists headBucket with
  | false =>
    rw [upload_files_not_verified _ _ _ _ _ hb] at hres
    exact absurd hres (by simp)
  | true =>
    by_cases ht : tasks = []
    · rw [ht, upload_files_empty_eq _ _ _ _ hb] at hres
      exact absurd hres (by simp)
    · rw [upload_files_ok_eq _ _ _ _ _ hb ht] at hres ⊢
      rw [processCompleted_eq] at hres
      have hr := (Except.ok.inj hres).symm
      subst hr
      refine ⟨?_, ?_, rfl⟩
      · have hperm := (List.filter_append_perm (fun r => r.isSuccess)
          (completionOrder.map (outcomeFor worker))).length_eq
        rw [List.length_append, List.length_map, horder.length_eq] at hperm
        simpa using hperm
      · exact (List.filter_append_perm (fun r => r.isSuccess)
          (completionOrder.map (outcomeFor worker))).trans (horder.map _)

/-- C4: for an upload run whose `upload_files` call returns a report `r`,
the `upload` wrapper reports overall success exactly when no task failed;
`r`'s failure count is zero exactly when every submitted task's outcome
succeeded; and in both cases the wrapper's dict keeps the complete report,
so partial progress is always observable. -/
theorem upload_overall_success_spec
    (environment bucket_name : String) (headBucket : Except String Unit)
    (tasks completionOrder : List UploadTask)
    (worker : UploadTask → Except String FileResult) (r : UploadResults)
    (hres : (upload_files bucket_name headBucket (.ok tasks) worker
        completionOrder).result = .ok r) :
    ((upload environment bucket_name
        (upload_files bucket_name headBucket (.ok tasks) worker
          completionOrder).result).success = true ↔ r.failure_count = 0) ∧
    (upload environment bucket_name
        (upload_files bucket_name headBucket (.ok tasks) worker
          completionOrder).result).results = some r ∧
    (r.failure_count = 0 ↔
      ∀ res ∈ completionOrder.map (outcomeFor worker), res.isSuccess = true) := by
  rw [hres]
  refine ⟨?_, ?_, ?_⟩
  · unfold upload
    by_cases h : r.failure_count > 0
    · simp [h]; omega
    · simp [h]; omega
  · unfold upload
    by_cases h : r.failure_count > 0
    · simp [h]
    · simp [h]
  · cases hb : verify_bucket_exists headBucket with
    | false =>
      rw [upload_files_not_verified _ _ _ _ _ hb] at hres
      exact absurd hres (by simp)
    | true =>
      by_cases ht : tasks = []
      · rw [ht, upload_files_empty_eq _ _ _ _ hb] at hres
        exact absurd hres (by simp)
      · rw [upload_files_ok_eq _ _ _ _ _ hb ht] at hres
        rw [processCompleted_eq] at hres
        have hr := (Except.ok.inj hres).symm
        subst hr
        rw [List.length_eq_zero, List.filter_eq_nil_iff]
        constructor
        · intro h res hmem
          have := h res hmem
          simpa using this
        · intro h res hmem
          simpa using h res hmem

/-- C5: when the destination bucket reachability check fails — `head_bucket`
raised, so `verify_bucket_exists` is false — `upload_files` raises the
bucket-access error and submits no task to the worker pool, whatever the
enumeration and workers would have done. -/
theorem upload_files_bucket_unreachable
    (bucket_name e : String) (files_to_upload : Except String (List UploadTask))
    (worker : UploadTask → Except String FileResult)
    (completionOrder : List UploadTask) :
    upload_files bucket_name (.error e) files_to_upload worker completionOrder =
      ⟨.error ("Cannot access S3 bucket: " ++ bucket_name), []⟩ := by
  unfold upload_files verify_bucket_exists
  simp

/-- C10: when the bucket is reachable and the build directory exists but
holds no regular file, the enumeration returns an empty task list and
`upload_files` raises "No files found to upload" instead of returning an
empty report; nothing is submitted. -/
theorem upload_files_no_files_raises
    (sep : Char) (dist : BuildDir) (distName bucket_name : String)
    (worker : UploadTask → Except String FileResult)
    (taskOf : FSEntry × String → UploadTask)
    (completionOrder : List UploadTask)
    (hpresent : dist.present = true)
    (hnofiles : ∀ e ∈ dist.entries, e.isFile = false) :
    upload_files bucket_name (.ok ())
        ((get_files_to_upload sep dist distName).map (List.map taskOf))
        worker completionOrder =
      ⟨.error "No files found to upload", []⟩ := by
  have hempty : get_files_to_upload sep dist distName = .ok [] := by
    unfold get_files_to_upload
    rw [if_pos hpresent]
    congr 1
    rw [List.filter_eq_nil_iff.mpr (by intro a ha; simp [hnofiles a ha])]
    rfl
  rw [hempty]
  exact upload_files_empty_eq _ _ _ _ rfl

/-- C3 witness: three tasks — one clean success, one failure dict, one
worker-level exception — completed out of submission order still yield one
outcome each, with 1 + 2 = 3 accounted. -/
theorem upload_files_outcome_invariant_witness :
    ({ successful_uploads := [.ok "dist/index.html" "index.html" 100 "text/html" "h1"],
       failed_uploads := [.failed "dist/app.js" "app.js" "AccessDenied: denied",
                          .failed "dist/style.css" "style.css" "crash"],
       total_files := 3, total_size := 100, success_count := 1,
       failure_count := 2 } : UploadResults).success_count +
      (2 : Nat) = 3 ∧
    (([.ok "dist/index.html" "index.html" 100 "text/html" "h1"] ++
        [FileResult.failed "dist/app.js" "app.js" "AccessDenied: denied",
         FileResult.failed "dist/style.css" "style.css" "crash"]) : List FileResult).Perm
      (([⟨"dist/index.html", "index.html"⟩, ⟨"dist/app.js", "app.js"⟩,
         ⟨"dist/style.css", "style.css"⟩] : List UploadTask).map
        (outcomeFor (fun t =>
          if t.s3_key = "app.js" then
            .ok (.failed "dist/app.js" "app.js" "AccessDenied: denied")
          else if t.s3_key = "style.css" then .error "crash"
          else .ok (.ok "dist/index.html" "index.html" 100 "text/html" "h1")))) ∧
    (upload_files "bkt" (.ok ())
      (.ok [⟨"dist/index.html", "index.html"⟩, ⟨"dist/app.js", "app.js"⟩,
            ⟨"dist/style.css", "style.css"⟩])
      (fun t =>
        if t.s3_key = "app.js" then
          .ok (.failed "dist/app.js" "app.js" "AccessDenied: denied")
        else if t.s3_key = "style.css" then .error "crash"
        else .ok (.ok "dist/index.html" "index.html" 100 "text/html" "h1"))
      [⟨"dist/app.js", "app.js"⟩, ⟨"dist/style.css", "style.css"⟩,
       ⟨"dist/index.html", "index.html"⟩]).submitted =
      [⟨"dist/index.html", "index.html"⟩, ⟨"dist/app.js", "app.js"⟩,
       ⟨"dist/style.css", "style.css"⟩] := by
  have h := upload_files_outcome_invariant "bkt" (.ok ())
    [⟨"dist/index.html", "index.html"⟩, ⟨"dist/app.js", "app.js"⟩,
     ⟨"dist/style.css", "style.css"⟩]
    [⟨"dist/app.js", "app.js"⟩, ⟨"dist/style.css", "style.css"⟩,
     ⟨"dist/index.html", "index.html"⟩]
    (fun t =>
      if t.s3_key = "app.js" then
        .ok (.failed "dist/app.js" "app.js" "AccessDenied: denied")
      else if t.s3_key = "style.css" then .error "crash"
      else .ok (.ok "dist/index.html" "index.html" 100 "text/html" "h1"))
    { successful_uploads := [.ok "dist/index.html" "index.html" 100 "text/html" "h1"],
      failed_uploads := [.failed "dist/app.js" "app.js" "AccessDenied: denied",
                         .failed "dist/style.css" "style.css" "crash"],
      total_files := 3, total_size := 100, success_count := 1, failure_count := 2 }
    (by decide) rfl
  exact h

/-- C4 witness: a run with one failing task out of three reports overall
success `false` while keeping the complete report. -/
theorem upload_overall_success_spec_witness :
    ((upload "dev" "bkt"
        (upload_files "bkt" (.ok ())
          (.ok [⟨"dist/index.html", "index.html"⟩, ⟨"dist/app.js", "app.js"⟩])
          (fun t =>
            if t.s3_key = "app.js" then
              .ok (.failed "dist/app.js" "app.js" "AccessDenied: denied")
            else .ok (.ok "dist/index.html" "index.html" 100 "text/html" "h1"))
          [⟨"dist/index.html", "index.html"⟩, ⟨"dist/app.js", "app.js"⟩]).result).success
        = true ↔
      ({ successful_uploads := [.ok "dist/index.html" "index.html" 100 "text/html" "h1"],
         failed_uploads := [.failed "dist/app.js" "app.js" "AccessDenied: denied"],
         total_files := 2, total_size := 100, success_count := 1,
         failure_count := 1 } : UploadResults).failure_count = 0) ∧
    (upload "dev" "bkt"
        (upload_files "bkt" (.ok ())
          (.ok [⟨"dist/index.html", "index.html"⟩, ⟨"dist/app.js", "app.js"⟩])
          (fun t =>
            if t.s3_key = "app.js" then
              .ok (.failed "dist/app.js" "app.js" "AccessDenied: denied")
            else .ok (.ok "dist/index.html" "index.html" 100 "text/html" "h1"))
          [⟨"dist/index.html", "index.html"⟩, ⟨"dist/app.js", "app.js"⟩]).result).results
      = some { successful_uploads := [.ok "dist/index.html" "index.html" 100 "text/html" "h1"],
               failed_uploads := [.failed "dist/app.js" "app.js" "AccessDenied: denied"],
               total_files := 2, total_size := 100, success_count := 1,
               failure_count := 1 } ∧
    (({ successful_uploads := [.ok "dist/index.html" "index.html" 100 "text/html" "h1"],
        failed_uploads := [.failed "dist/app.js" "app.js" "AccessDenied: denied"],
        total_files := 2, total_size := 100, success_count := 1,
        failure_count := 1 } : UploadResults).failure_count = 0 ↔
      ∀ res ∈ ([⟨"dist/index.html", "index.html"⟩, ⟨"dist/app.js", "app.js"⟩] :
          List UploadTask).map
        (outcomeFor (fun t =>
          if t.s3_key = "app.js" then
            .ok (.failed "dist/app.js" "app.js" "AccessDenied: denied")
          else .ok (.ok "dist/index.html" "index.html" 100 "text/html" "h1"))),
        res.isSuccess = true) :=
  upload_overall_success_spec "dev" "bkt" (.ok ())
    [⟨"dist/index.html", "index.html"⟩, ⟨"dist/app.js", "app.js"⟩]
    [⟨"dist/index.html", "index.html"⟩, ⟨"dist/app.js", "app.js"⟩]
    (fun t =>
      if t.s3_key = "app.js" then
        .ok (.failed "dist/app.js" "app.js" "AccessDenied: denied")
      else .ok (.ok "dist/index.html" "index.html" 100 "text/html" "h1"))
    { successful_uploads := [.ok "dist/index.html" "index.html" 100 "text/html" "h1"],
      failed_uploads := [.failed "dist/app.js" "app.js" "AccessDenied: denied"],
      total_files := 2, total_size := 100, success_count := 1, failure_count := 1 }
    rfl

/-- C10 witness: a present build directory whose only entry is a
subdirectory makes the upload raise "No files found to upload". -/
theorem upload_files_no_files_raises_witness :
    upload_files "bkt" (.ok ())
        ((get_files_to_upload '/' ⟨true, [⟨["assets"], false⟩]⟩ "dist").map
          (List.map (fun p => ⟨"dist", p.2⟩)))
        (fun _ => .error "unused") [] =
      ⟨.error "No files found to upload", []⟩ :=
  upload_files_no_files_raises '/' ⟨true, [⟨["assets"], false⟩]⟩ "dist" "bkt"
    (fun _ => .error "unused") (fun p => ⟨"dist", p.2⟩) [] rfl (by decide)

/-- C6: the content-type mapping is the total deterministic fallback chain —
the classification facility's answer when it has one, else the built-in
web-asset table at the lowercased extension, else the generic binary type —
and the cache-control mapping is the no-cache constant on every path. -/
theorem content_typer_spec (guess : String → Option String) (file_path : String) :
    (∀ t, guess file_path = some t → get_mime_type guess file_path = t) ∧
    (guess file_path = none →
      ∀ t, customTypes.lookup (lowerString (pySuffix file_path)) = some t →
        get_mime_type guess file_path = t) ∧
    (guess file_path = none →
      customTypes.lookup (lowerString (pySuffix file_path)) = none →
      get_mime_type guess file_path = "application/octet-stream") ∧
    get_cache_control file_path = "no-cache, no-store, must-revalidate" := by
  refine ⟨?_, ?_, ?_, rfl⟩
  · intro t ht
    simp [get_mime_type, ht]
  · intro hg t ht
    simp [get_mime_type, hg, ht]
  · intro hg ht
    simp [get_mime_type, hg, ht]

/-- C6 witness: with the classification facility ignorant, `app.JS` falls
back to the table at `.js`, and the cache directive is the constant. -/
theorem content_typer_spec_witness :
    (fun _ => (none : Option String)) "assets/app.JS" = none ∧
    customTypes.lookup (lowerString (pySuffix "assets/app.JS")) =
      some "application/javascript" ∧
    get_mime_type (fun _ => none) "assets/app.JS" = "application/javascript" ∧
    get_cache_control "assets/app.JS" = "no-cache, no-store, must-revalidate" :=
  ⟨rfl, by decide,
    (content_typer_spec (fun _ => none) "assets/app.JS").2.1 rfl
      "application/javascript" (by decide),
    (content_typer_spec (fun _ => none) "assets/app.JS").2.2.2⟩

/-- The backslash substitution leaves no backslash behind. -/
theorem not_bs_mem_replaceBackslash (cs : List Char) :
    ('\\' : Char) ∉ replaceBackslash cs := by
  intro h
  rw [replaceBackslash, List.mem_map] at h
  obtain ⟨c, _, hc⟩ := h
  by_cases hcb : c = '\\'
  · rw [if_pos hcb] at hc
    exact absurd hc (by decide)
  · rw [if_neg hcb] at hc
    exact hcb hc

/-- The backslash substitution fixes strings without backslashes. -/
theorem replaceBackslash_of_no_bs (cs : List Char) (h : ('\\' : Char) ∉ cs) :
    replaceBackslash cs = cs := by
  induction cs with
  | nil => rfl
  | cons c rest ih =>
    rw [replaceBackslash, List.map_cons]
    have hc : c ≠ '\\' := fun hc => h (hc ▸ List.mem_cons_self c rest)
    rw [if_neg hc]
    exact congrArg _ (ih (fun hm => h (List.mem_cons_of_mem _ hm)))

/-- For backslash-free components, substituting after joining with either
host separator gives the forward-slash join. -/
theorem joinComponents_replace (sep : Char) (hsep : sep = '/' ∨ sep = '\\') :
    ∀ comps : List String, (∀ c ∈ comps, ('\\' : Char) ∉ c.toList) →
      replaceBackslash (joinComponents sep comps) = joinComponents '/' comps
  | [] => fun _ => rfl
  | [c] => fun h => replaceBackslash_of_no_bs _ (h c (by simp))
  | c :: d :: tl => fun h => by
    have hrec := joinComponents_replace sep hsep (d :: tl)
      (fun x hx => h x (List.mem_cons_of_mem _ hx))
    have hsepchar : (if sep = '\\' then '/' else sep) = '/' := by
      rcases hsep with h1 | h1 <;> subst h1 <;> simp
    calc replaceBackslash (joinComponents sep (c :: d :: tl))
        = replaceBackslash (c.toList ++ sep :: joinComponents sep (d :: tl)) := rfl
      _ = replaceBackslash c.toList ++ (if sep = '\\' then '/' else sep) ::
            replaceBackslash (joinComponents sep (d :: tl)) := by
          simp [replaceBackslash]
      _ = c.toList ++ '/' :: joinComponents '/' (d :: tl) := by
          rw [replaceBackslash_of_no_bs _ (h c (by simp)), hsepchar, hrec]
      _ = joinComponents '/' (c :: d :: tl) := rfl

/-- C7: `get_files_to_upload` raises when the build directory is missing;
otherwise it pairs exactly the regular files beneath it with keys that are
the forward-slash join of their root-relative components — on either host
separator convention — and every produced key is free of backslashes. -/
theorem get_files_to_upload_spec (sep : Char) (dist : BuildDir) (distName : String)
    (hsep : sep = '/' ∨ sep = '\\')
    (hcomps : ∀ e ∈ dist.entries, ∀ c ∈ e.components, ('\\' : Char) ∉ c.toList) :
    (dist.present = false →
      get_files_to_upload sep dist distName =
        .error ("Build directory not found: " ++ distName)) ∧
    (dist.present = true →
      get_files_to_upload sep dist distName =
        .ok ((dist.entries.filter (fun e => e.isFile)).map
          (fun e => (e, String.mk (joinComponents '/' e.components))))) ∧
    (∀ l, get_files_to_upload sep dist distName = .ok l →
      ∀ p ∈ l, ('\\' : Char) ∉ p.2.toList) := by
  refine ⟨?_, ?_, ?_⟩
  · intro h
    unfold get_files_to_upload
    rw [h]
    simp
  · intro h
    unfold get_files_to_upload
    rw [h]
    simp only [if_true]
    congr 1
    refine List.map_congr_left fun e he => ?_
    have hc := hcomps e (List.mem_of_mem_filter he)
    unfold relativeKey
    rw [joinComponents_replace sep hsep e.components hc]
  · intro l hl p hp
    unfold get_files_to_upload at hl
    by_cases h : dist.present
    · rw [if_pos h] at hl
      injection hl with hl
      subst hl
      rw [List.mem_map] at hp
      obtain ⟨e, _, hpe⟩ := hp
      rw [← hpe]
      exact not_bs_mem_replaceBackslash _
    · rw [if_neg h] at hl
      exact absurd hl (by simp)

/-- C7 witness: on the Windows separator convention, two regular files and a
directory enumerate to the two files with forward-slash keys. -/
theorem get_files_to_upload_spec_witness :
    get_files_to_upload '\\'
        ⟨true, [⟨["assets", "app.js"], true⟩, ⟨["assets"], false⟩,
                ⟨["index.html"], true⟩]⟩ "dist" =
      .ok [(⟨["assets", "app.js"], true⟩, "assets/app.js"),
           (⟨["index.html"], true⟩, "index.html")] := by
  have h := (get_files_to_upload_spec '\\'
      ⟨true, [⟨["assets", "app.js"], true⟩, ⟨["assets"], false⟩,
              ⟨["index.html"], true⟩]⟩ "dist"
      (Or.inr rfl) (by decide)).2.1 rfl
  exact h

/-- C8: `create_invalidation` reads `distribution_id` off the
`EnvironmentSettings` instance, which has no such field, so every call —
whatever the settings values, the CDN behaviour, the paths and the caller
reference — raises the wrapped `AttributeError` before any request can be
submitted, instead of submitting with the resolved target's distribution id. -/
theorem create_invalidation_missing_distribution_id
    (settings : EnvironmentSettings)
    (cdn : PyVal → List String → String → CdnCallResult)
    (paths : List String) (caller_reference : String) :
    create_invalidation settings cdn paths caller_reference =
      .error ("Unexpected error creating invalidation: 'EnvironmentSettings' object has no attribute 'distribution_id'") :=
  rfl

/-- C9: `deploy` runs prerequisites, then build (unless skipped), then
upload, in that strict order; each completed step is recorded with its own
success flag and duration; the first failing required step ends the run at
once with the step records accumulated so far; and no execution path ever
invokes cache invalidation. -/
theorem deploy_spec (environment : String) (prereq : Except String Unit)
    (skip_build : Bool) (build : Except String Unit)
    (upload_result : UploadOuterResult) (prereqTime buildTime uploadTime : Nat) :
    "invalidate" ∉ (deploy environment prereq skip_build build upload_result
        prereqTime buildTime uploadTime).executed ∧
    (∀ e, prereq = .error e →
      deploy environment prereq skip_build build upload_result prereqTime
          buildTime uploadTime =
        ⟨{ success := false, environment := environment, steps := [],
           total_time := prereqTime, error := some e }, ["prerequisites"]⟩) ∧
    (∀ e, prereq = .ok () → skip_build = false → build = .error e →
      deploy environment prereq skip_build build upload_result prereqTime
          buildTime uploadTime =
        ⟨{ success := false, environment := environment,
           steps := [⟨"prerequisites", true, prereqTime, false⟩],
           total_time := prereqTime + buildTime, error := some e },
         ["prerequisites", "build"]⟩) ∧
    (∀ e, prereq = .ok () → skip_build = true → upload_result.success = false →
      upload_result.error = some e →
      deploy environment prereq skip_build build upload_result prereqTime
          buildTime uploadTime =
        ⟨{ success := false, environment := environment,
           steps := [⟨"prerequisites", true, prereqTime, false⟩,
                     ⟨"build", true, 0, true⟩],
           total_time := prereqTime + uploadTime,
           error := some ("S3 upload failed: " ++ e) },
         ["prerequisites", "upload"]⟩) ∧
    (∀ e, prereq = .ok () → skip_build = false → build = .ok () →
      upload_result.success = false → upload_result.error = some e →
      deploy environment prereq skip_build build upload_result prereqTime
          buildTime uploadTime =
        ⟨{ success := false, environment := environment,
           steps := [⟨"prerequisites", true, prereqTime, false⟩,
                     ⟨"build", true, buildTime, false⟩],
           total_time := prereqTime + buildTime + uploadTime,
           error := some ("S3 upload failed: " ++ e) },
         ["prerequisites", "build", "upload"]⟩) ∧
    (prereq = .ok () → skip_build = true → upload_result.success = true →
      deploy environment prereq skip_build build upload_result prereqTime
          buildTime uploadTime =
        ⟨{ success := true, environment := environment,
           steps := [⟨"prerequisites", true, prereqTime, false⟩,
                     ⟨"build", true, 0, true⟩,
                     ⟨"upload", true, uploadTime, false⟩],
           total_time := prereqTime + uploadTime, error := none },
         ["prerequisites", "upload"]⟩) ∧
    (prereq = .ok () → skip_build = false → build = .ok () →
      upload_result.success = true →
      deploy environment prereq skip_build build upload_result prereqTime
          buildTime uploadTime =
        ⟨{ success := true, environment := environment,
           steps := [⟨"prerequisites", true, prereqTime, false⟩,
                     ⟨"build", true, buildTime, false⟩,
                     ⟨"upload", true, uploadTime, false⟩],
           total_time := prereqTime + buildTime + uploadTime, error := none },
         ["prerequisites", "build", "upload"]⟩) := by
  refine ⟨?_, ?_, ?_, ?_, ?_, ?_, ?_⟩
  · cases prereq with
    | error e => simp [deploy]
    | ok u =>
      cases u
      cases skip_build with
      | true =>
        by_cases hu : upload_result.success = true <;>
          simp [deploy, deployUploadPhase, hu]
      | false =>
        cases build with
        | error e => simp [deploy]
        | ok u =>
          cases u
          by_cases hu : upload_result.success = true <;>
            simp [deploy, deployUploadPhase, hu]
  · intro e he
    subst he
    rfl
  · intro e he hs hb
    subst he
    subst hs
    subst hb
    rfl
  · intro e he hs hu hue
    subst he
    subst hs
    simp [deploy, deployUploadPhase, hu, hue]
  · intro e he hs hb hu hue
    subst he
    subst hs
    subst hb
    simp [deploy, deployUploadPhase, hu, hue]
  · intro he hs hu
    subst he
    subst hs
    simp [deploy, deployUploadPhase, hu]
  · intro he hs hb hu
    subst he
    subst hs
    subst hb
    simp [deploy, deployUploadPhase, hu]

/-- C9 witness: with prerequisites and build succeeding and the upload step
failing, the run stops after upload with only the first two step records. -/
theorem deploy_spec_witness :
    deploy "dev" (.ok ()) false (.ok ())
        { success := false, environment := "dev", bucket := "bkt",
          results := none, error := some "1 files failed to upload" } 3 40 7 =
      ⟨{ success := false, environment := "dev",
         steps := [⟨"prerequisites", true, 3, false⟩, ⟨"build", true, 40, false⟩],
         total_time := 3 + 40 + 7,
         error := some ("S3 upload failed: " ++ "1 files failed to upload") },
       ["prerequisites", "build", "upload"]⟩ :=
  (deploy_spec "dev" (.ok ()) false (.ok ())
      { success := false, environment := "dev", bucket := "bkt",
        results := none, error := some "1 files failed to upload" }
      3 40 7).2.2.2.2.1 "1 files failed to upload" rfl rfl rfl rfl rfl

end Healthmate
